import Mathlib

/-!
Verification development for the DeepRegulatoryNet repository.

The development shallowly embeds the two Python source files:

* `DeepRegulatoryNet.py` — the orchestrator: input validation
  (`validate_input_format`), the required-file existence checks, the
  temp/output directory wipe, and the sequence of pipeline stages inside
  `run_analysis`, whose external stage bodies (the prediction engine,
  network construction, overlap extraction, enrichment, PPI and drug-gene
  analyses) are modelled as oracle outcomes (normal return or a raised
  exception) supplied by an environment record.  The observable behaviour
  of a run is a trace of events (log lines, directory wipes, stage starts,
  file writes) together with the process exit code (0 for a normal return
  from `run_analysis`, 1 for the `sys.exit(1)` in its outer handler).

* `src/drug_gene_script.py` — the drug-gene stage: `load_gene_names`,
  `query_dgidb` (its HTTP response modelled as an abstract record of
  status code, body and parsed node list), `extract_interactions`, and
  `run_pipeline`; the data computed by `draw_stacked_bar` before plotting
  is embedded as pure functions on the flattened interaction records.

Python strings are Lean `String`s, Python `None`/absent JSON fields are
`Option`, Python lists are Lean `List`s in the same order, and `dict.get`
with a default is `Option.getD`.  Numeric interaction scores are carried
opaquely as integers since no computation in the source inspects them.
-/

namespace DeepRegulatoryNet

/-- Canonical empty string, used for `dict.get(key, "")` defaults. -/
def emptyStr : String := ""

/-- Python `s.startswith(p)`. -/
def pyStartsWith (s p : String) : Bool := p.data.isPrefixOf s.data

/-- Python `s.strip()`: the string with leading and trailing whitespace
removed. -/
def pyStrip (s : String) : String :=
  ⟨((s.data.dropWhile Char.isWhitespace).reverse.dropWhile Char.isWhitespace).reverse⟩

/-- Required prefix for circRNA identifiers in `run_analysis`. -/
def circPfx : String := "hsa_circ_"

/-- Required prefix for miRNA identifiers in `run_analysis`. -/
def mirnaPfx : String := "hsa-miR"

/-- Head of the `ValueError` message raised by `validate_input_format`. -/
def invalidPre : String := "Invalid ID format in "

/-- Separator of the `ValueError` message of `validate_input_format`. -/
def invalidMid : String := ": "

/-- Message of the `ValueError` raised in `validate_input_format` for an
offending line: it names the exact file path and the stripped line. -/
def invalidFmtMsg (path line : String) : String :=
  invalidPre ++ path ++ invalidMid ++ line

/-- Head of the `FileNotFoundError` message in `run_analysis`. -/
def missingPre : String := "Missing file: "

/-- Message of the `FileNotFoundError` raised by the existence loop of
`run_analysis` for a missing required file. -/
def missingFileMsg (path : String) : String := missingPre ++ path

/-- Head of the message of the error raised by `open` when the input file
itself does not exist. -/
def openFailPre : String := "No such file or directory: "

/-- Message of the exception raised by `open` on a missing input file. -/
def openFailMsg (path : String) : String := openFailPre ++ path

/-- Relative path of the serialized classifier required by `run_analysis`. -/
def modelPathStr : String := "Model_Files/calibrated_catboost_site_type_model.pkl"

/-- Relative path of the serialized label encoder. -/
def encoderPathStr : String := "Model_Files/label_encoder.pkl"

/-- Relative path of the serialized robust scaler. -/
def scalerPathStr : String := "Model_Files/robust_scaler.pkl"

/-- The list comprehension `[line.strip() for line in f if line.strip()]`
of `validate_input_format`: keep the lines whose stripped form is
non-empty, each replaced by its stripped form, in file order. -/
def stripLines (raw : List String) : List String :=
  (raw.filter (fun l => pyStrip l != emptyStr)).map pyStrip

/-- First line of `lines` that does not start with `p`: the line at which
the `for` loop of `validate_input_format` raises. -/
def firstBadLine (lines : List String) (p : String) : Option String :=
  lines.find? (fun l => !(pyStartsWith l p))

/-- `validate_input_format(file_path, expected_prefix)`.  `content` is the
list of raw lines of the file (`none` when the file is missing, in which
case `open` raises).  A given prefix is checked only when it is truthy
(non-empty), exactly as `if expected_prefix and not line.startswith(...)`.
The returned value on success is the ordered list of stripped non-blank
lines; the embedding is a pure function, mirroring that the Python
function has no side effect beyond reading the file. -/
def validate_input_format (path : String) (content : Option (List String))
    (pfx : Option String) : Except String (List String) :=
  match content with
  | none => .error (openFailMsg path)
  | some raw =>
    let lines := stripLines raw
    match pfx with
    | none => .ok lines
    | some p =>
      if p = emptyStr then .ok lines
      else
        match firstBadLine lines p with
        | some l => .error (invalidFmtMsg path l)
        | none => .ok lines

/-- Identifiers for the pipeline stages of `run_analysis`. -/
inductive StageId where
  | predict
  | network
  | extract
  | enrich
  | ppi
  | drugGene
deriving DecidableEq

/-- Observable events of a run: log lines that the source emits, the
directory wipes, stage starts, the DGIdb network call and the two output
artifacts of the drug-gene stage. -/
inductive Event where
  | wipeTemp
  | wipeOutput
  | stageStart (s : StageId)
  | warnSkip (s : StageId)
  | warnStageFailed (s : StageId)
  | warnNoOverlap
  | warnNoGenes
  | warnNoData
  | warnNoInteractions
  | infoLoaded (n : Nat)
  | errorReadInput
  | networkCall
  | errorApi (status : Nat) (body : String)
  | errorRequestFailed
  | writeCsv
  | writePlot
  | errorLine (msg : String)
  | successLine
deriving DecidableEq

/-- Environment of one `run_analysis` invocation: the contents of the
three input files (`none` = missing file, otherwise the raw lines),
existence of the three model artifacts, and for each external stage body
an oracle outcome — `some e` means the call raises an exception whose
message is `e`, `none` means it returns normally.  `overlapNonEmpty` is
the truth value of `overlap_df is not None and not overlap_df.empty`;
`overlappingCsvExists` and `hubCsvExists` are the results of the
`os.path.exists` checks guarding steps 3-5. -/
structure Env where
  circPath : String
  mirnaPath : String
  degPath : String
  circ : Option (List String)
  mirna : Option (List String)
  deg : Option (List String)
  modelExists : Bool
  encoderExists : Bool
  scalerExists : Bool
  predictExc : Option String
  overlapNonEmpty : Bool
  excelExc : Option String
  networkExc : Option String
  extractExc : Option String
  overlappingCsvExists : Bool
  hubCsvExists : Bool
  enrichExc : Option String
  ppiExc : Option String
  drugGeneExc : Option String

/-- Prepend already-emitted events to the result of the rest of the run. -/
def seqT (es : List Event) (t : List Event × Nat) : List Event × Nat :=
  (es ++ t.1, t.2)

/-- The outer `except` handler of `run_analysis`: log `[ERROR]` and
`sys.exit(1)`. -/
def abortTail (e : String) : List Event × Nat := ([Event.errorLine e], 1)

/-- Normal fall-through of `run_analysis`: the final `[SUCCESS]` line and
process exit code 0. -/
def finishTail : List Event × Nat := ([Event.successLine], 0)

/-- Step 5 of `run_analysis`: drug-gene analysis, guarded by the
existence of `output/hub_genes.csv`; an exception from `drug_gene_main`
reaches the outer handler. -/
def stepDrugTail (env : Env) : List Event × Nat :=
  seqT [Event.stageStart .drugGene]
    (if env.hubCsvExists then
      match env.drugGeneExc with
      | some e => abortTail e
      | none => finishTail
    else seqT [Event.warnSkip .drugGene] finishTail)

/-- Step 4 of `run_analysis`: PPI analysis, guarded by the existence of
`output/overlapping_genes.csv`; an exception from `PPI_Analysis` reaches
the outer handler. -/
def stepPpiTail (env : Env) : List Event × Nat :=
  seqT [Event.stageStart .ppi]
    (if env.overlappingCsvExists then
      match env.ppiExc with
      | some e => abortTail e
      | none => stepDrugTail env
    else seqT [Event.warnSkip .ppi] (stepDrugTail env))

/-- Step 3 of `run_analysis`: enrichment analysis, guarded by the
existence of `output/overlapping_genes.csv`; an exception from
`enrichment_main` reaches the outer handler. -/
def stepEnrichTail (env : Env) : List Event × Nat :=
  seqT [Event.stageStart .enrich]
    (if env.overlappingCsvExists then
      match env.enrichExc with
      | some e => abortTail e
      | none => stepPpiTail env
    else seqT [Event.warnSkip .enrich] (stepPpiTail env))

/-- The `genes = pipe.extract_overlapping_genes() or []` block: its own
`try` catches any exception, logs a warning, and continues with step 3. -/
def extractTail (env : Env) : List Event × Nat :=
  match env.extractExc with
  | some _ => seqT [Event.warnStageFailed .extract] (stepEnrichTail env)
  | none => stepEnrichTail env

/-- Step 2.5 of `run_analysis`: network construction inside its own
`try`, whose exception is logged as a warning before continuing. -/
def networkTail (env : Env) : List Event × Nat :=
  seqT [Event.stageStart .network]
    (match env.networkExc with
    | some _ => seqT [Event.warnStageFailed .network] (extractTail env)
    | none => extractTail env)

/-- Step 1 of `run_analysis`: the prediction engine (SecondPipeline
construction, `process_all_circs`, `find_strong_hits`, `match_mirnas`,
`analyze_mrna_overlap`) has no local handler, so an exception reaches the
outer handler; on success the overlap emptiness decides whether the Excel
export and the network step run or a no-overlap warning is logged. -/
def predictTail (env : Env) : List Event × Nat :=
  seqT [Event.stageStart .predict]
    (match env.predictExc with
    | some e => abortTail e
    | none =>
      if env.overlapNonEmpty then
        match env.excelExc with
        | some e => abortTail e
        | none => networkTail env
      else seqT [Event.warnNoOverlap] (extractTail env))

/-- The required-file existence loop of `run_analysis` followed by the
temp/output wipe.  The three input files already exist here (they were
just opened by validation), so the loop can only fail on the model,
encoder and scaler artifacts, in that order; only when all checks pass
are `temp` and `output` removed and recreated. -/
def checksAndWipe (env : Env) : List Event × Nat :=
  if env.modelExists then
    if env.encoderExists then
      if env.scalerExists then
        seqT [Event.wipeTemp, Event.wipeOutput] (predictTail env)
      else abortTail (missingFileMsg scalerPathStr)
    else abortTail (missingFileMsg encoderPathStr)
  else abortTail (missingFileMsg modelPathStr)

/-- `run_analysis(circ_file, mirna_file, deg_file)`: the three input
validations run first inside the outer `try`; any raised exception is
logged by the outer handler and the process exits with code 1. -/
def run_analysis (env : Env) : List Event × Nat :=
  match validate_input_format env.circPath env.circ (some circPfx) with
  | .error e => abortTail e
  | .ok _ =>
    match validate_input_format env.mirnaPath env.mirna (some mirnaPfx) with
    | .error e => abortTail e
    | .ok _ =>
      match validate_input_format env.degPath env.deg none with
      | .error e => abortTail e
      | .ok _ => checksAndWipe env

/-! Embedding of `src/drug_gene_script.py`. -/

/-- The `drug { name conceptId }` sub-object of a DGIdb interaction. -/
structure DrugJson where
  name : Option String
  conceptId : Option String
deriving DecidableEq

/-- An `interactionTypes { type directionality }` entry. -/
structure ITypeJson where
  type : Option String
  directionality : Option String
deriving DecidableEq

/-- An `interactionAttributes { name value }` entry. -/
structure AttrJson where
  name : Option String
  value : Option String
deriving DecidableEq

/-- A `publications { pmid }` entry. -/
structure PubJson where
  pmid : Option Nat
deriving DecidableEq

/-- A `sources { sourceDbName }` entry. -/
structure SrcJson where
  sourceDbName : Option String
deriving DecidableEq

/-- One interaction of a gene node in the DGIdb GraphQL response; every
field may be absent (`none`), in which case `dict.get` supplies the
default used by `extract_interactions`. -/
structure InteractionJson where
  drug : Option DrugJson
  interactionScore : Option Int
  interactionTypes : Option (List ITypeJson)
  interactionAttributes : Option (List AttrJson)
  publications : Option (List PubJson)
  sources : Option (List SrcJson)
deriving DecidableEq

/-- One gene node of the DGIdb GraphQL response. -/
structure GeneNodeJson where
  name : Option String
  interactions : Option (List InteractionJson)
deriving DecidableEq

/-- One flattened output row of `extract_interactions`; field names are
the dictionary keys of the Python record. -/
structure InteractionRecord where
  Gene : String
  Drug : String
  Concept_ID : String
  Score : Int
  Interaction_Types : Option String
  Interaction_Attributes : String
  Publications_PMIDs : String
  Sources : String
deriving DecidableEq

/-- Separator used by every `"; ".join(...)` of `extract_interactions`. -/
def semiSep : String := "; "

/-- `"; ".join(parts)`: empty string on the empty list, otherwise the
parts in order with the separator between consecutive parts. -/
def joinSemi : List String → String
  | [] => emptyStr
  | [a] => a
  | a :: b :: rest => a ++ semiSep ++ joinSemi (b :: rest)

/-- Opening fragment of the interaction-type format string. -/
def lparStr : String := " ("

/-- Closing fragment of the interaction-type format string. -/
def rparStr : String := ")"

/-- Separator of the attribute format string. -/
def eqSepStr : String := "="

/-- The f-string for one interaction-type entry. -/
def fmtType (t : ITypeJson) : String :=
  t.type.getD emptyStr ++ lparStr ++ t.directionality.getD emptyStr ++ rparStr

/-- The f-string for one interaction-attribute entry. -/
def fmtAttr (a : AttrJson) : String :=
  a.name.getD emptyStr ++ eqSepStr ++ a.value.getD emptyStr

/-- `str(p.get("pmid", ""))` for one publication entry. -/
def fmtPub (p : PubJson) : String :=
  match p.pmid with
  | none => emptyStr
  | some n => toString n

/-- `s.get("sourceDbName", "")` for one source entry. -/
def fmtSrc (s : SrcJson) : String := s.sourceDbName.getD emptyStr

/-- The `Interaction_Types` field: the semicolon join of the formatted
type entries, turned into `None` by `or None` when that join is the
(falsy) empty string. -/
def typesField (ts : List ITypeJson) : Option String :=
  if joinSemi (ts.map fmtType) = emptyStr then none
  else some (joinSemi (ts.map fmtType))

/-- The record built by `extract_interactions` for one (gene,
interaction) pair. -/
def recordOfInteraction (gene : String) (i : InteractionJson) : InteractionRecord :=
  { Gene := gene
    Drug := (i.drug.getD ⟨none, none⟩).name.getD emptyStr
    Concept_ID := (i.drug.getD ⟨none, none⟩).conceptId.getD emptyStr
    Score := i.interactionScore.getD 0
    Interaction_Types := typesField (i.interactionTypes.getD [])
    Interaction_Attributes := joinSemi ((i.interactionAttributes.getD []).map fmtAttr)
    Publications_PMIDs := joinSemi ((i.publications.getD []).map fmtPub)
    Sources := joinSemi ((i.sources.getD []).map fmtSrc) }

/-- `extract_interactions(data)`: one record per (gene, interaction)
pair, in response order. -/
def extract_interactions (data : List GeneNodeJson) : List InteractionRecord :=
  data.flatMap (fun item =>
    (item.interactions.getD []).map (recordOfInteraction (item.name.getD emptyStr)))

/-- A parsed CSV table: association list from column name to the column
values (a missing value in a cell is `none`, as a pandas NaN). -/
structure CsvTable where
  cols : List (String × List (Option String))
deriving DecidableEq

/-- Name of the required hub-genes column. -/
def geneCol : String := "Gene"

/-- First-occurrence deduplication with an accumulator of already-seen
values: the order and multiplicity semantics of `pandas.Series.unique`. -/
def uniqueFirstAux (seen : List String) : List String → List String
  | [] => []
  | a :: as =>
    if a ∈ seen then uniqueFirstAux seen as
    else a :: uniqueFirstAux (a :: seen) as

/-- `Series.unique().tolist()`: each value once, at its first occurrence. -/
def uniqueFirst (l : List String) : List String := uniqueFirstAux [] l

/-- `load_gene_names(file_path)`.  `csv` is `none` when `pd.read_csv`
itself raises (missing or malformed file).  A missing `Gene` column
raises a `ValueError`; both exceptions are caught by the same handler,
which logs an error and returns the empty list.  On success the result is
`df["Gene"].dropna().unique().tolist()`. -/
def load_gene_names (csv : Option CsvTable) : List Event × List String :=
  match csv with
  | none => ([Event.errorReadInput], [])
  | some t =>
    match t.cols.lookup geneCol with
    | none => ([Event.errorReadInput], [])
    | some vals =>
      let genes := uniqueFirst (vals.filterMap id)
      ([Event.infoLoaded genes.length], genes)

/-- An HTTP response of the DGIdb GraphQL endpoint: status code, body
text, and the node list that `r.json()` parsing with the chained `.get`
defaults would produce. -/
structure HttpResp where
  status : Nat
  body : String
  nodes : List GeneNodeJson
deriving DecidableEq

/-- `query_dgidb(genes)`.  `resp` is `none` when `requests.post` raises;
the call itself is the first emitted event.  A non-200 status logs the
status code and body and returns the empty list; a 200 response yields
its parsed node list. -/
def query_dgidb (resp : Option HttpResp) : List Event × List GeneNodeJson :=
  match resp with
  | none => ([Event.networkCall, Event.errorRequestFailed], [])
  | some r =>
    if r.status ≠ 200 then ([Event.networkCall, Event.errorApi r.status r.body], [])
    else ([Event.networkCall], r.nodes)

/-- `run_pipeline()`: load genes, exit early on an empty list, query
DGIdb, exit early on no data, flatten, exit early on an empty table, and
only then write `drug_gene_interactions.csv` and the stacked bar plot. -/
def run_pipeline (csv : Option CsvTable) (resp : Option HttpResp) : List Event :=
  let loaded := load_gene_names csv
  if loaded.2 = [] then loaded.1 ++ [Event.warnNoGenes]
  else
    let queried := query_dgidb resp
    if queried.2 = [] then loaded.1 ++ queried.1 ++ [Event.warnNoData]
    else
      let df := extract_interactions queried.2
      if df = [] then loaded.1 ++ queried.1 ++ [Event.warnNoInteractions]
      else loaded.1 ++ queried.1 ++ [Event.writeCsv, Event.writePlot]

/-! Embedding of the data computed by `draw_stacked_bar` before plotting. -/

/-- Number of top genes kept in the stacked bar chart. -/
def TOP_GENES : Nat := 15

/-- Replacement label of `fillna("Unknown")`. -/
def unknownLabel : String := "Unknown"

/-- The `Interaction_Types` value of a row after `fillna("Unknown")`. -/
def fillTypes (r : InteractionRecord) : String :=
  r.Interaction_Types.getD unknownLabel

/-- Number of distinct values in a list (`Series.nunique`). -/
def distinctCount (l : List String) : Nat := (uniqueFirst l).length

/-- Drugs of the rows in the (gene, filled interaction-type) group. -/
def cellDrugs (rs : List InteractionRecord) (g t : String) : List String :=
  (rs.filter (fun r => r.Gene == g && fillTypes r == t)).map (fun r => r.Drug)

/-- One cell of the pivoted table: the distinct-drug count of the (gene,
filled interaction-type) group, 0 (the `fillna(0)`) when the group is
empty. -/
def stackedBarCell (rs : List InteractionRecord) (g t : String) : Nat :=
  distinctCount (cellDrugs rs g t)

/-- Total distinct-drug count of one gene
(`stacked_df.groupby("Gene")["Drug"].nunique()`). -/
def geneTotal (rs : List InteractionRecord) (g : String) : Nat :=
  distinctCount ((rs.filter (fun r => r.Gene == g)).map (fun r => r.Drug))

/-- The genes occurring in the table, each once. -/
def genesOf (rs : List InteractionRecord) : List String :=
  uniqueFirst (rs.map (fun r => r.Gene))

/-- Comparator of `sort_values(ascending=False)` on the per-gene totals:
`a` precedes `b` when its total is at least that of `b`. -/
def geneLe (rs : List InteractionRecord) (a b : String) : Bool :=
  decide (geneTotal rs b ≤ geneTotal rs a)

/-- `sort_values(ascending=False).head(n).index`: the genes sorted by
descending total distinct-drug count, truncated to the first `n`. -/
def topGenes (rs : List InteractionRecord) (n : Nat) : List String :=
  ((genesOf rs).mergeSort (geneLe rs)).take n

/-- `pivot_df.loc[pivot_df.index.intersection(top_genes)]`: the rows of
the pivot table restricted to the selected top genes. -/
def stackedBarGenes (rs : List InteractionRecord) (n : Nat) : List String :=
  (genesOf rs).filter (fun g => decide (g ∈ topGenes rs n))

/-- The row set that `draw_stacked_bar` plots, with the module-level
`TOP_GENES` constant. -/
def draw_stacked_bar_genes (rs : List InteractionRecord) : List String :=
  stackedBarGenes rs TOP_GENES

/-! Helper lemmas about the string formatters. -/

lemma lparStr_length : lparStr.length = 2 := rfl

lemma rparStr_length : rparStr.length = 1 := rfl

lemma semiSep_length : semiSep.length = 2 := rfl

lemma ne_emptyStr_of_length_pos {s : String} (h : 0 < s.length) : s ≠ emptyStr := by
  intro he
  exact absurd (he ▸ h) (by decide)

lemma fmtType_length (t : ITypeJson) : 0 < (fmtType t).length := by
  unfold fmtType
  simp only [String.length_append, lparStr_length, rparStr_length]
  omega

lemma fmtType_ne_empty (t : ITypeJson) : fmtType t ≠ emptyStr :=
  ne_emptyStr_of_length_pos (fmtType_length t)

lemma joinSemi_ne_empty {l : List String} (h : ∀ x ∈ l, x ≠ emptyStr)
    (hl : l ≠ []) : joinSemi l ≠ emptyStr := by
  match l with
  | [] => exact absurd rfl hl
  | [a] => simpa [joinSemi] using h a (by simp)
  | a :: b :: rest =>
    have hlen : 0 < (joinSemi (a :: b :: rest)).length := by
      simp only [joinSemi, String.length_append, semiSep_length]
      omega
    exact ne_emptyStr_of_length_pos hlen

lemma typesField_eq_none_iff (ts : List ITypeJson) :
    typesField ts = none ↔ ts = [] := by
  unfold typesField
  constructor
  · intro h
    by_contra hts
    have hne : joinSemi (ts.map fmtType) ≠ emptyStr := by
      refine joinSemi_ne_empty ?_ ?_
      · intro x hx
        obtain ⟨t, _, rfl⟩ := List.mem_map.1 hx
        exact fmtType_ne_empty t
      · simpa using hts
    rw [if_neg hne] at h
    exact Option.some_ne_none _ h
  · intro h
    subst h
    simp [joinSemi]

lemma typesField_ne_some_empty (ts : List ITypeJson) :
    typesField ts ≠ some emptyStr := by
  unfold typesField
  split
  · simp
  · rename_i hne
    intro h
    exact hne (Option.some.inj h)

/-- C10: every `Interaction_Types` value produced by the extraction is
either the null marker `none` or a non-empty string — never the empty
string — and it is `none` exactly when the (possibly defaulted)
`interactionTypes` list is empty, including the present-but-empty case. -/
theorem c10_types_null_or_nonempty (ts : List ITypeJson) (g : String)
    (i : InteractionJson) :
    (typesField ts = none ↔ ts = [])
    ∧ typesField ts ≠ some emptyStr
    ∧ (recordOfInteraction g i).Interaction_Types ≠ some emptyStr
    ∧ ((recordOfInteraction g i).Interaction_Types = none
        ↔ i.interactionTypes.getD [] = []) :=
  ⟨typesField_eq_none_iff ts, typesField_ne_some_empty ts,
    typesField_ne_some_empty _, typesField_eq_none_iff _⟩

/-- C1: `extract_interactions` yields exactly one record per (gene,
interaction) pair of the response; within each record the type,
attribute, publication and source sub-lists are joined with the `"; "`
separator in response order; an absent interaction-type list gives the
null marker `none` while absent attribute, publication or source lists
give the empty string. -/
theorem c1_extract_one_row_per_pair (data : List GeneNodeJson) :
    (extract_interactions data).length
        = (data.map (fun item => (item.interactions.getD []).length)).sum
    ∧ (∀ item ∈ data, ∀ i ∈ item.interactions.getD [],
        recordOfInteraction (item.name.getD emptyStr) i ∈ extract_interactions data)
    ∧ ∀ (g : String) (i : InteractionJson),
        (i.interactionTypes = none → (recordOfInteraction g i).Interaction_Types = none)
        ∧ (∀ ts, i.interactionTypes = some ts →
            (recordOfInteraction g i).Interaction_Types
              = if ts = [] then none else some (joinSemi (ts.map fmtType)))
        ∧ (i.interactionAttributes = none →
            (recordOfInteraction g i).Interaction_Attributes = emptyStr)
        ∧ (∀ la, i.interactionAttributes = some la →
            (recordOfInteraction g i).Interaction_Attributes = joinSemi (la.map fmtAttr))
        ∧ (i.publications = none →
            (recordOfInteraction g i).Publications_PMIDs = emptyStr)
        ∧ (∀ lp, i.publications = some lp →
            (recordOfInteraction g i).Publications_PMIDs = joinSemi (lp.map fmtPub))
        ∧ (i.sources = none → (recordOfInteraction g i).Sources = emptyStr)
        ∧ (∀ ls, i.sources = some ls →
            (recordOfInteraction g i).Sources = joinSemi (ls.map fmtSrc)) := by
  refine ⟨?_, ?_, ?_⟩
  · unfold extract_interactions
    rw [List.length_flatMap]
    simp [Function.comp_def]
  · intro item hitem i hi
    refine List.mem_flatMap.2 ⟨item, hitem, ?_⟩
    exact List.mem_map_of_mem _ hi
  · intro g i
    refine ⟨?_, ?_, ?_, ?_, ?_, ?_, ?_, ?_⟩
    · intro h
      simp [recordOfInteraction, h, typesField, joinSemi]
    · intro ts hts
      by_cases hts0 : ts = []
      · subst hts0
        simp [recordOfInteraction, hts, typesField, joinSemi]
      · rw [if_neg hts0]
        have hne : joinSemi (ts.map fmtType) ≠ emptyStr := by
          refine joinSemi_ne_empty ?_ ?_
          · intro x hx
            obtain ⟨t, _, rfl⟩ := List.mem_map.1 hx
            exact fmtType_ne_empty t
          · simpa using hts0
        simp [recordOfInteraction, hts, typesField, hne]
    · intro h
      simp [recordOfInteraction, h, joinSemi]
    · intro la hla
      simp [recordOfInteraction, hla]
    · intro h
      simp [recordOfInteraction, h, joinSemi]
    · intro lp hlp
      simp [recordOfInteraction, hlp]
    · intro h
      simp [recordOfInteraction, h, joinSemi]
    · intro ls hls
      simp [recordOfInteraction, hls]

/-- Sample interaction-type string used by concrete witnesses. -/
def inhibStr : String := "inhibitor"

/-- Sample directionality string used by concrete witnesses. -/
def dirStr : String := "INHIBITORY"

/-- Sample gene symbol used by concrete witnesses. -/
def geneAStr : String := "TP53"

/-- Sample drug name used by concrete witnesses. -/
def drugAStr : String := "DRUGX"

/-- Sample interaction-type entry. -/
def tIW : ITypeJson := ⟨some inhibStr, some dirStr⟩

/-- Sample interaction with an absent sources list. -/
def interW : InteractionJson :=
  ⟨some ⟨some drugAStr, none⟩, none, some [tIW], none, some [], none⟩

/-- Sample gene node. -/
def nodeW : GeneNodeJson := ⟨some geneAStr, some [interW]⟩

/-- Sample response data. -/
def dataW : List GeneNodeJson := [nodeW]

/-- Witness for C1 at a concrete one-node response. -/
theorem c1_extract_one_row_per_pair_witness :
    (extract_interactions dataW).length
        = (dataW.map (fun item => (item.interactions.getD []).length)).sum
    ∧ recordOfInteraction (nodeW.name.getD emptyStr) interW ∈ extract_interactions dataW
    ∧ (recordOfInteraction geneAStr interW).Sources = emptyStr := by
  have h := c1_extract_one_row_per_pair dataW
  exact ⟨h.1, h.2.1 nodeW (by decide) interW (by decide),
    (h.2.2 geneAStr interW).2.2.2.2.2.2.1 rfl⟩

/-! Lemmas about first-occurrence deduplication. -/

lemma mem_uniqueFirstAux (x : String) : ∀ (l seen : List String),
    x ∈ uniqueFirstAux seen l ↔ x ∈ l ∧ x ∉ seen := by
  intro l
  induction l with
  | nil => intro seen; simp [uniqueFirstAux]
  | cons a as ih =>
    intro seen
    by_cases h : a ∈ seen <;> by_cases hxa : x = a <;>
      simp [uniqueFirstAux, h, hxa, ih]
    subst hxa
    intro hmem
    exact ((ih seen).1 hmem).2 h

lemma nodup_uniqueFirstAux : ∀ (l seen : List String),
    (uniqueFirstAux seen l).Nodup := by
  intro l
  induction l with
  | nil => intro seen; simp [uniqueFirstAux]
  | cons a as ih =>
    intro seen
    by_cases h : a ∈ seen
    · simpa [uniqueFirstAux, h] using ih seen
    · simp only [uniqueFirstAux, if_neg h, List.nodup_cons]
      refine ⟨fun hmem => ?_, ih (a :: seen)⟩
      exact ((mem_uniqueFirstAux a as (a :: seen)).1 hmem).2 (List.mem_cons_self a seen)

lemma mem_uniqueFirst (x : String) (l : List String) :
    x ∈ uniqueFirst l ↔ x ∈ l := by
  unfold uniqueFirst
  rw [mem_uniqueFirstAux]
  simp

lemma nodup_uniqueFirst (l : List String) : (uniqueFirst l).Nodup :=
  nodup_uniqueFirstAux l []

/-- C7: `load_gene_names` returns the empty list without raising when
the CSV is missing or malformed or lacks the `Gene` column; when the
column is present, the result has no duplicates and consists exactly of
the non-null column values. -/
theorem c7_load_gene_names_total (csv : Option CsvTable) :
    (csv = none → load_gene_names csv = ([Event.errorReadInput], []))
    ∧ (∀ t, csv = some t → t.cols.lookup geneCol = none →
        load_gene_names csv = ([Event.errorReadInput], []))
    ∧ ∀ t vals, csv = some t → t.cols.lookup geneCol = some vals →
        (load_gene_names csv).2.Nodup
        ∧ ∀ g, (g ∈ (load_gene_names csv).2 ↔ some g ∈ vals) := by
  refine ⟨?_, ?_, ?_⟩
  · intro h
    subst h
    rfl
  · intro t h hl
    subst h
    simp [load_gene_names, hl]
  · intro t vals h hl
    subst h
    simp only [load_gene_names, hl]
    refine ⟨nodup_uniqueFirst _, ?_⟩
    intro g
    rw [mem_uniqueFirst]
    simp [List.mem_filterMap]

/-- Concrete hub-genes table used by witnesses: a `Gene` column with a
null cell and a duplicated symbol. -/
def csvW : CsvTable := ⟨[(geneCol, [some geneAStr, none, some geneAStr])]⟩

/-- Witness for C7 at a missing file and at a concrete table. -/
theorem c7_load_gene_names_total_witness :
    load_gene_names none = ([Event.errorReadInput], [])
    ∧ (load_gene_names (some csvW)).2.Nodup
    ∧ (geneAStr ∈ (load_gene_names (some csvW)).2
        ↔ some geneAStr ∈ [some geneAStr, none, some geneAStr]) := by
  have h0 := c7_load_gene_names_total none
  have h := c7_load_gene_names_total (some csvW)
  refine ⟨h0.1 rfl, ?_, ?_⟩
  · exact (h.2.2 csvW [some geneAStr, none, some geneAStr] rfl (by decide)).1
  · exact (h.2.2 csvW [some geneAStr, none, some geneAStr] rfl (by decide)).2 geneAStr

lemma networkCall_not_mem_load (csv : Option CsvTable) :
    Event.networkCall ∉ (load_gene_names csv).1 := by
  match csv with
  | none => simp [load_gene_names]
  | some t => cases hl : t.cols.lookup geneCol <;> simp [load_gene_names, hl]

/-- C8: with an empty loaded gene list, `run_pipeline` exits early with
the warning and never issues the DGIdb network call. -/
theorem c8_empty_genes_no_network (csv : Option CsvTable)
    (resp : Option HttpResp) (h : (load_gene_names csv).2 = []) :
    run_pipeline csv resp = (load_gene_names csv).1 ++ [Event.warnNoGenes]
    ∧ Event.networkCall ∉ run_pipeline csv resp := by
  have he : run_pipeline csv resp
      = (load_gene_names csv).1 ++ [Event.warnNoGenes] := by
    simp only [run_pipeline]
    rw [if_pos h]
  refine ⟨he, ?_⟩
  rw [he]
  simp [networkCall_not_mem_load csv]

/-- Witness for C8 with a missing hub-genes file. -/
theorem c8_empty_genes_no_network_witness :
    run_pipeline none none = [Event.errorReadInput, Event.warnNoGenes]
    ∧ Event.networkCall ∉ run_pipeline none none := by
  have h := c8_empty_genes_no_network none none rfl
  exact ⟨h.1.trans rfl, h.2⟩

/-- C4: when the prefix is absent, or every stripped non-blank line
starts with the given prefix, `validate_input_format` returns exactly
the non-blank lines of the file, stripped, in file order; the embedding
is a pure function of the file content. -/
theorem c4_validate_returns_stripped_lines (path : String)
    (raw : List String) (p : String)
    (hall : ∀ l ∈ stripLines raw, pyStartsWith l p = true) :
    validate_input_format path (some raw) (some p)
        = .ok ((raw.filter (fun l => pyStrip l != emptyStr)).map pyStrip)
    ∧ validate_input_format path (some raw) none
        = .ok ((raw.filter (fun l => pyStrip l != emptyStr)).map pyStrip) := by
  constructor
  · simp only [validate_input_format]
    by_cases hp : p = emptyStr
    · rw [if_pos hp]
      rfl
    · rw [if_neg hp]
      have hnone : firstBadLine (stripLines raw) p = none := by
        rw [firstBadLine, List.find?_eq_none]
        intro x hx
        simp [hall x hx]
      rw [hnone]
      rfl
  · rfl

/-- Concrete circRNA input path used by witnesses. -/
def pathW : String := "input/circ.txt"

/-- A valid circRNA identifier line. -/
def lineGoodW : String := "  hsa_circ_0001  "

/-- A blank line. -/
def blankW : String := "   "

/-- Concrete raw file content used by witnesses. -/
def rawW : List String := [lineGoodW, blankW]

/-- Witness for C4 at a concrete two-line file. -/
theorem c4_validate_returns_stripped_lines_witness :
    validate_input_format pathW (some rawW) (some circPfx)
        = .ok ((rawW.filter (fun l => pyStrip l != emptyStr)).map pyStrip)
    ∧ validate_input_format pathW (some rawW) none
        = .ok ((rawW.filter (fun l => pyStrip l != emptyStr)).map pyStrip) :=
  c4_validate_returns_stripped_lines pathW rawW circPfx (by decide)

/-! Lemmas and theorems about the orchestrator `run_analysis`. -/

lemma validate_ok_isSome {path : String} {content : Option (List String)}
    {pfx : Option String} {x : List String}
    (h : validate_input_format path content pfx = .ok x) :
    content.isSome = true := by
  cases content with
  | none => simp [validate_input_format] at h
  | some raw => rfl

lemma circPfx_ne_empty : ¬(circPfx = emptyStr) := by decide

lemma mirnaPfx_ne_empty : ¬(mirnaPfx = emptyStr) := by decide

lemma validate_some_of_bad {path : String} {raw : List String} {p l : String}
    (hp : ¬(p = emptyStr)) (hbad : firstBadLine (stripLines raw) p = some l) :
    validate_input_format path (some raw) (some p)
      = .error (invalidFmtMsg path l) := by
  simp only [validate_input_format]
  rw [if_neg hp, hbad]

lemma validate_some_of_good {path : String} {raw : List String} {p : String}
    (hp : ¬(p = emptyStr)) (hgood : firstBadLine (stripLines raw) p = none) :
    validate_input_format path (some raw) (some p) = .ok (stripLines raw) := by
  simp only [validate_input_format]
  rw [if_neg hp, hgood]

/-- C3: a non-blank line violating the required prefix of an input file
makes the run abort immediately: the only emitted event is the error
line built from that exact file path and that offending (stripped) line,
no stage is started, and the exit code is 1.  The circRNA file is
validated first, then the miRNA file; the DEG file carries no prefix
constraint. -/
theorem c3_prefix_violation_aborts (env : Env) :
    (∀ raw l, env.circ = some raw →
        firstBadLine (stripLines raw) circPfx = some l →
        run_analysis env = ([Event.errorLine (invalidFmtMsg env.circPath l)], 1)
        ∧ (∀ s, Event.stageStart s ∉ (run_analysis env).1)
        ∧ (run_analysis env).2 = 1)
    ∧ ∀ craw mraw l, env.circ = some craw →
        firstBadLine (stripLines craw) circPfx = none →
        env.mirna = some mraw →
        firstBadLine (stripLines mraw) mirnaPfx = some l →
        run_analysis env = ([Event.errorLine (invalidFmtMsg env.mirnaPath l)], 1)
        ∧ (∀ s, Event.stageStart s ∉ (run_analysis env).1)
        ∧ (run_analysis env).2 = 1 := by
  constructor
  · intro raw l hc hbad
    have hval : validate_input_format env.circPath env.circ (some circPfx)
        = .error (invalidFmtMsg env.circPath l) := by
      rw [hc]
      exact validate_some_of_bad circPfx_ne_empty hbad
    have hrun : run_analysis env
        = ([Event.errorLine (invalidFmtMsg env.circPath l)], 1) := by
      simp only [run_analysis, hval]
      rfl
    refine ⟨hrun, ?_, by rw [hrun]⟩
    intro s
    rw [hrun]
    simp
  · intro craw mraw l hc hgood hm hbad
    have hvalc : validate_input_format env.circPath env.circ (some circPfx)
        = .ok (stripLines craw) := by
      rw [hc]
      exact validate_some_of_good circPfx_ne_empty hgood
    have hvalm : validate_input_format env.mirnaPath env.mirna (some mirnaPfx)
        = .error (invalidFmtMsg env.mirnaPath l) := by
      rw [hm]
      exact validate_some_of_bad mirnaPfx_ne_empty hbad
    have hrun : run_analysis env
        = ([Event.errorLine (invalidFmtMsg env.mirnaPath l)], 1) := by
      simp only [run_analysis, hvalc, hvalm]
      rfl
    refine ⟨hrun, ?_, by rw [hrun]⟩
    intro s
    rw [hrun]
    simp

/-- An identifier missing the `hsa_circ_` prefix. -/
def badIdW : String := "circ_BAD_1"

/-- Concrete miRNA input path used by witnesses. -/
def mirPathW : String := "input/mirna.txt"

/-- Concrete DEG input path used by witnesses. -/
def degPathW : String := "input/deg.txt"

/-- Environment whose circRNA file holds an invalid identifier. -/
def envC3 : Env :=
  { circPath := pathW, mirnaPath := mirPathW, degPath := degPathW,
    circ := some [badIdW], mirna := some [], deg := some [],
    modelExists := true, encoderExists := true, scalerExists := true,
    predictExc := none, overlapNonEmpty := false, excelExc := none,
    networkExc := none, extractExc := none,
    overlappingCsvExists := false, hubCsvExists := false,
    enrichExc := none, ppiExc := none, drugGeneExc := none }

/-- Witness for C3 at a concrete invalid circRNA file. -/
theorem c3_prefix_violation_aborts_witness :
    run_analysis envC3 = ([Event.errorLine (invalidFmtMsg envC3.circPath badIdW)], 1)
    ∧ (∀ s, Event.stageStart s ∉ (run_analysis envC3).1)
    ∧ (run_analysis envC3).2 = 1 :=
  (c3_prefix_violation_aborts envC3).1 [badIdW] badIdW rfl (by decide)

/-- C9: the temp and output directories are wiped exactly when all three
input validations return successfully and all six required files (the
three inputs and the model, encoder and scaler artifacts) exist; in
particular a run aborted by a validation error or a missing required
file emits no wipe event, leaving the pre-existing directories
untouched. -/
theorem c9_wipe_only_after_checks (env : Env) :
    (Event.wipeTemp ∈ (run_analysis env).1 ∨ Event.wipeOutput ∈ (run_analysis env).1)
    ↔ ((∃ x, validate_input_format env.circPath env.circ (some circPfx) = .ok x)
       ∧ (∃ x, validate_input_format env.mirnaPath env.mirna (some mirnaPfx) = .ok x)
       ∧ (∃ x, validate_input_format env.degPath env.deg none = .ok x)
       ∧ env.circ.isSome = true ∧ env.mirna.isSome = true ∧ env.deg.isSome = true
       ∧ env.modelExists = true ∧ env.encoderExists = true
       ∧ env.scalerExists = true) := by
  cases hc : validate_input_format env.circPath env.circ (some circPfx) with
  | error e =>
    simp only [run_analysis, hc]
    constructor
    · intro h
      rcases h with h | h <;> simp [abortTail] at h
    · rintro ⟨⟨x, hx⟩, -⟩
      exact Except.noConfusion hx
  | ok cx =>
    cases hm : validate_input_format env.mirnaPath env.mirna (some mirnaPfx) with
    | error e =>
      simp only [run_analysis, hc, hm]
      constructor
      · intro h
        rcases h with h | h <;> simp [abortTail] at h
      · rintro ⟨-, ⟨x, hx⟩, -⟩
        exact Except.noConfusion hx
    | ok mx =>
      cases hd : validate_input_format env.degPath env.deg none with
      | error e =>
        simp only [run_analysis, hc, hm, hd]
        constructor
        · intro h
          rcases h with h | h <;> simp [abortTail] at h
        · rintro ⟨-, -, ⟨x, hx⟩, -⟩
          exact Except.noConfusion hx
      | ok dx =>
        simp only [run_analysis, hc, hm, hd, checksAndWipe]
        cases hmo : env.modelExists with
        | false =>
          constructor
          · intro h
            rcases h with h | h <;> simp [abortTail] at h
          · rintro ⟨-, -, -, -, -, -, hmo2, -⟩
            exact Bool.noConfusion hmo2
        | true =>
          cases hen : env.encoderExists with
          | false =>
            constructor
            · intro h
              rcases h with h | h <;> simp [abortTail] at h
            · rintro ⟨-, -, -, -, -, -, -, hen2, -⟩
              exact Bool.noConfusion hen2
          | true =>
            cases hsc : env.scalerExists with
            | false =>
              constructor
              · intro h
                rcases h with h | h <;> simp [abortTail] at h
              · rintro ⟨-, -, -, -, -, -, -, -, hsc2⟩
                exact Bool.noConfusion hsc2
            | true =>
              simp only [if_pos rfl]
              constructor
              · intro _
                refine ⟨⟨cx, rfl⟩, ⟨mx, rfl⟩, ⟨dx, rfl⟩, validate_ok_isSome hc,
                  validate_ok_isSome hm, validate_ok_isSome hd, ?_, ?_, ?_⟩ <;> simp
              · intro _
                left
                simp [seqT]

/-! Success-path lemmas for the tail of `run_analysis`. -/

lemma stepDrugTail_ok (env : Env) (h : env.drugGeneExc = none) :
    Event.successLine ∈ (stepDrugTail env).1 ∧ (stepDrugTail env).2 = 0 := by
  cases hh : env.hubCsvExists <;>
    simp [stepDrugTail, seqT, finishTail, h, hh]

lemma stepPpiTail_ok (env : Env) (hp : env.ppiExc = none)
    (hd : env.drugGeneExc = none) :
    Event.successLine ∈ (stepPpiTail env).1 ∧ (stepPpiTail env).2 = 0 := by
  have hD := stepDrugTail_ok env hd
  cases hh : env.overlappingCsvExists <;>
    simp [stepPpiTail, seqT, hp, hh, hD.1, hD.2]

lemma stepEnrichTail_ok (env : Env) (he : env.enrichExc = none)
    (hp : env.ppiExc = none) (hd : env.drugGeneExc = none) :
    Event.successLine ∈ (stepEnrichTail env).1 ∧ (stepEnrichTail env).2 = 0 := by
  have hP := stepPpiTail_ok env hp hd
  cases hh : env.overlappingCsvExists <;>
    simp [stepEnrichTail, seqT, he, hh, hP.1, hP.2]

lemma extractTail_ok (env : Env) (he : env.enrichExc = none)
    (hp : env.ppiExc = none) (hd : env.drugGeneExc = none) :
    Event.successLine ∈ (extractTail env).1 ∧ (extractTail env).2 = 0 := by
  have hE := stepEnrichTail_ok env he hp hd
  cases hx : env.extractExc <;>
    simp [extractTail, seqT, hx, hE.1, hE.2]

lemma networkTail_ok (env : Env) (he : env.enrichExc = none)
    (hp : env.ppiExc = none) (hd : env.drugGeneExc = none) :
    Event.successLine ∈ (networkTail env).1 ∧ (networkTail env).2 = 0 := by
  have hX := extractTail_ok env he hp hd
  cases hn : env.networkExc <;>
    simp [networkTail, seqT, hn, hX.1, hX.2]

lemma predictTail_ok (env : Env) (hpre : env.predictExc = none)
    (hex : env.excelExc = none) (he : env.enrichExc = none)
    (hp : env.ppiExc = none) (hd : env.drugGeneExc = none) :
    Event.successLine ∈ (predictTail env).1 ∧ (predictTail env).2 = 0 := by
  have hN := networkTail_ok env he hp hd
  have hX := extractTail_ok env he hp hd
  cases ho : env.overlapNonEmpty <;>
    simp [predictTail, seqT, hpre, hex, ho, hN.1, hN.2, hX.1, hX.2]

lemma run_analysis_setup (env : Env) {cx mx dx : List String}
    (hc : validate_input_format env.circPath env.circ (some circPfx) = .ok cx)
    (hm : validate_input_format env.mirnaPath env.mirna (some mirnaPfx) = .ok mx)
    (hd : validate_input_format env.degPath env.deg none = .ok dx)
    (hmo : env.modelExists = true) (hen : env.encoderExists = true)
    (hsc : env.scalerExists = true) :
    run_analysis env
      = ([Event.wipeTemp, Event.wipeOutput] ++ (predictTail env).1,
         (predictTail env).2) := by
  simp [run_analysis, hc, hm, hd, checksAndWipe, hmo, hen, hsc, seqT]

/-! Lemmas about the trace of `run_pipeline`. -/

lemma load_trace_shape (csv : Option CsvTable) :
    (load_gene_names csv).1 = [Event.errorReadInput]
    ∨ ∃ n, (load_gene_names csv).1 = [Event.infoLoaded n] := by
  match csv with
  | none => left; rfl
  | some t =>
    cases hl : t.cols.lookup geneCol with
    | none => left; simp [load_gene_names, hl]
    | some vals =>
      right
      refine ⟨(uniqueFirst (vals.filterMap id)).length, ?_⟩
      simp [load_gene_names, hl]

lemma writeCsv_not_mem_load (csv : Option CsvTable) :
    Event.writeCsv ∉ (load_gene_names csv).1 := by
  rcases load_trace_shape csv with h | ⟨n, h⟩ <;> simp [h]

lemma writePlot_not_mem_load (csv : Option CsvTable) :
    Event.writePlot ∉ (load_gene_names csv).1 := by
  rcases load_trace_shape csv with h | ⟨n, h⟩ <;> simp [h]

lemma run_pipeline_eq_of_empty (csv : Option CsvTable) (resp : Option HttpResp)
    (h : (load_gene_names csv).2 = []) :
    run_pipeline csv resp = (load_gene_names csv).1 ++ [Event.warnNoGenes] := by
  simp only [run_pipeline]
  rw [if_pos h]

lemma run_pipeline_eq_of_noData (csv : Option CsvTable) (resp : Option HttpResp)
    (hg : ¬((load_gene_names csv).2 = [])) (hq : (query_dgidb resp).2 = []) :
    run_pipeline csv resp
      = (load_gene_names csv).1 ++ (query_dgidb resp).1 ++ [Event.warnNoData] := by
  simp only [run_pipeline]
  rw [if_neg hg, if_pos hq]

/-- C5: a non-200 DGIdb response makes `query_dgidb` log the status code
and body and return no data; `run_pipeline` then returns after the
no-data warning, writing neither the interactions CSV nor the bar plot
and raising no exception; and a run whose stages all return normally
still ends with the final `[SUCCESS]` line and exit code 0. -/
theorem c5_http_error_yields_empty_and_success :
    (∀ (csv : Option CsvTable) (r : HttpResp), r.status ≠ 200 →
        query_dgidb (some r) = ([Event.networkCall, Event.errorApi r.status r.body], [])
        ∧ Event.writeCsv ∉ run_pipeline csv (some r)
        ∧ Event.writePlot ∉ run_pipeline csv (some r))
    ∧ ∀ (env : Env) (cx mx dx : List String),
        validate_input_format env.circPath env.circ (some circPfx) = .ok cx →
        validate_input_format env.mirnaPath env.mirna (some mirnaPfx) = .ok mx →
        validate_input_format env.degPath env.deg none = .ok dx →
        env.modelExists = true → env.encoderExists = true →
        env.scalerExists = true → env.predictExc = none →
        env.excelExc = none → env.enrichExc = none →
        env.ppiExc = none → env.drugGeneExc = none →
        Event.successLine ∈ (run_analysis env).1 ∧ (run_analysis env).2 = 0 := by
  constructor
  · intro csv r h
    have hq : query_dgidb (some r)
        = ([Event.networkCall, Event.errorApi r.status r.body], []) := by
      simp [query_dgidb, h]
    have hq1 : (query_dgidb (some r)).1
        = [Event.networkCall, Event.errorApi r.status r.body] := by rw [hq]
    have hq2 : (query_dgidb (some r)).2 = [] := by rw [hq]
    refine ⟨hq, ?_, ?_⟩
    · by_cases hg : (load_gene_names csv).2 = []
      · rw [run_pipeline_eq_of_empty csv (some r) hg]
        simp [writeCsv_not_mem_load csv]
      · rw [run_pipeline_eq_of_noData csv (some r) hg hq2]
        simp [hq1, writeCsv_not_mem_load csv]
    · by_cases hg : (load_gene_names csv).2 = []
      · rw [run_pipeline_eq_of_empty csv (some r) hg]
        simp [writePlot_not_mem_load csv]
      · rw [run_pipeline_eq_of_noData csv (some r) hg hq2]
        simp [hq1, writePlot_not_mem_load csv]
  · intro env cx mx dx hc hm hd hmo hen hsc hpre hex he hp hdg
    have hrun := run_analysis_setup env hc hm hd hmo hen hsc
    have hP := predictTail_ok env hpre hex he hp hdg
    rw [hrun]
    exact ⟨by simp [hP.1], hP.2⟩

/-- Body of the concrete HTTP 500 response. -/
def bodyW : String := "Internal Server Error"

/-- A concrete HTTP 500 response of the DGIdb endpoint. -/
def respW : HttpResp := ⟨500, bodyW, []⟩

/-- Environment of a fully successful run. -/
def envOkW : Env :=
  { circPath := pathW, mirnaPath := mirPathW, degPath := degPathW,
    circ := some [], mirna := some [], deg := some [],
    modelExists := true, encoderExists := true, scalerExists := true,
    predictExc := none, overlapNonEmpty := false, excelExc := none,
    networkExc := none, extractExc := none,
    overlappingCsvExists := false, hubCsvExists := false,
    enrichExc := none, ppiExc := none, drugGeneExc := none }

/-- Witness for C5 at a concrete 500 response and a concrete clean run. -/
theorem c5_http_error_yields_empty_and_success_witness :
    query_dgidb (some respW) = ([Event.networkCall, Event.errorApi 500 bodyW], [])
    ∧ Event.writeCsv ∉ run_pipeline none (some respW)
    ∧ Event.writePlot ∉ run_pipeline none (some respW)
    ∧ Event.successLine ∈ (run_analysis envOkW).1
    ∧ (run_analysis envOkW).2 = 0 := by
  have h1 := c5_http_error_yields_empty_and_success.1 none respW (by decide)
  have h2 := c5_http_error_yields_empty_and_success.2 envOkW [] [] []
    rfl rfl rfl rfl rfl rfl rfl rfl rfl rfl rfl
  exact ⟨h1.1, h1.2.1, h1.2.2, h2.1, h2.2⟩

/-! C2: the claimed catch-and-skip behaviour holds only for the
Construct-Network and Extract-Overlap steps; the other stages have no
local handler. -/

/-- Exception message of the failing enrichment stage. -/
def eBoomStr : String := "enrichment exploded"

/-- Exception message of the failing drug-gene stage. -/
def dgBoomStr : String := "drug gene exploded"

/-- Environment identical to a clean run except that the enrichment
stage raises. -/
def envC2 : Env :=
  { circPath := pathW, mirnaPath := mirPathW, degPath := degPathW,
    circ := some [], mirna := some [], deg := some [],
    modelExists := true, encoderExists := true, scalerExists := true,
    predictExc := none, overlapNonEmpty := false, excelExc := none,
    networkExc := none, extractExc := none,
    overlappingCsvExists := true, hubCsvExists := true,
    enrichExc := some eBoomStr, ppiExc := none, drugGeneExc := none }

/-- Counterexample to C2 as stated: with every input valid, every
artifact present and only the enrichment stage raising, the run aborts
with exit code 1, never starts the PPI stage and emits no success line —
the enrichment exception is not treated as a skip of that stage only. -/
theorem c2_counterexample_enrich_aborts :
    envC2.enrichExc = some eBoomStr
    ∧ (run_analysis envC2).2 = 1
    ∧ Event.stageStart .ppi ∉ (run_analysis envC2).1
    ∧ Event.successLine ∉ (run_analysis envC2).1 := by decide

/-- C2 (amended): exceptions raised inside the Construct-Network and
Extract-Overlap steps are caught, logged as warnings and treated as a
skip of that step only, after which execution continues; exceptions
raised inside the Predict, Enrich, PPI or Drug-Gene stages reach the
top-level handler, which logs them and aborts the entire run with exit
status 1, as do input-validation failures and missing required model
artifacts. -/
theorem c2_amended_stage_exceptions (env : Env) (cx mx dx : List String)
    (hc : validate_input_format env.circPath env.circ (some circPfx) = .ok cx)
    (hm : validate_input_format env.mirnaPath env.mirna (some mirnaPfx) = .ok mx)
    (hd : validate_input_format env.degPath env.deg none = .ok dx)
    (hmo : env.modelExists = true) (hen : env.encoderExists = true)
    (hsc : env.scalerExists = true) :
    (∀ e, env.predictExc = some e →
        (run_analysis env).2 = 1
        ∧ Event.stageStart .enrich ∉ (run_analysis env).1
        ∧ Event.successLine ∉ (run_analysis env).1)
    ∧ (env.predictExc = none → env.overlapNonEmpty = true →
        env.excelExc = none → ∀ e, env.networkExc = some e →
        Event.warnStageFailed .network ∈ (run_analysis env).1
        ∧ Event.stageStart .enrich ∈ (run_analysis env).1)
    ∧ (env.predictExc = none → env.overlapNonEmpty = false →
        ∀ e, env.extractExc = some e →
        Event.warnStageFailed .extract ∈ (run_analysis env).1
        ∧ Event.stageStart .enrich ∈ (run_analysis env).1)
    ∧ (env.predictExc = none → env.overlapNonEmpty = false →
        env.extractExc = none → env.overlappingCsvExists = true →
        ∀ e, env.enrichExc = some e →
        (run_analysis env).2 = 1
        ∧ Event.stageStart .ppi ∉ (run_analysis env).1)
    ∧ (env.predictExc = none → env.overlapNonEmpty = false →
        env.extractExc = none → env.overlappingCsvExists = true →
        env.enrichExc = none → ∀ e, env.ppiExc = some e →
        (run_analysis env).2 = 1
        ∧ Event.stageStart .drugGene ∉ (run_analysis env).1)
    ∧ (env.predictExc = none → env.overlapNonEmpty = false →
        env.extractExc = none → env.overlappingCsvExists = true →
        env.enrichExc = none → env.ppiExc = none → env.hubCsvExists = true →
        ∀ e, env.drugGeneExc = some e →
        (run_analysis env).2 = 1
        ∧ Event.successLine ∉ (run_analysis env).1) := by
  have hrun := run_analysis_setup env hc hm hd hmo hen hsc
  refine ⟨?_, ?_, ?_, ?_, ?_, ?_⟩
  · intro e hpe
    rw [hrun]
    simp [predictTail, seqT, abortTail, hpe]
  · intro hpe hov hex e hne
    rw [hrun]
    constructor
    · simp [predictTail, networkTail, seqT, hpe, hov, hex, hne]
    · cases hx : env.extractExc <;>
        simp [predictTail, networkTail, extractTail, stepEnrichTail, seqT,
          hpe, hov, hex, hne, hx]
  · intro hpe hov e hx
    rw [hrun]
    constructor
    · simp [predictTail, extractTail, seqT, hpe, hov, hx]
    · simp [predictTail, extractTail, stepEnrichTail, seqT, hpe, hov, hx]
  · intro hpe hov hx hcsv e henr
    rw [hrun]
    constructor
    · simp [predictTail, extractTail, stepEnrichTail, seqT, abortTail,
        hpe, hov, hx, hcsv, henr]
    · simp [predictTail, extractTail, stepEnrichTail, seqT, abortTail,
        hpe, hov, hx, hcsv, henr]
  · intro hpe hov hx hcsv henr e hppi
    rw [hrun]
    constructor
    · simp [predictTail, extractTail, stepEnrichTail, stepPpiTail, seqT,
        abortTail, hpe, hov, hx, hcsv, henr, hppi]
    · simp [predictTail, extractTail, stepEnrichTail, stepPpiTail, seqT,
        abortTail, hpe, hov, hx, hcsv, henr, hppi]
  · intro hpe hov hx hcsv henr hppi hhub e hdg
    rw [hrun]
    constructor
    · simp [predictTail, extractTail, stepEnrichTail, stepPpiTail,
        stepDrugTail, seqT, abortTail, hpe, hov, hx, hcsv, henr, hppi,
        hhub, hdg]
    · simp [predictTail, extractTail, stepEnrichTail, stepPpiTail,
        stepDrugTail, seqT, abortTail, hpe, hov, hx, hcsv, henr, hppi,
        hhub, hdg]

/-- Environment identical to `envC2` except that the enrichment stage
returns normally and the drug-gene stage raises. -/
def envW2 : Env :=
  { envC2 with enrichExc := none, drugGeneExc := some dgBoomStr }

/-- Witness for the amended C2 at a run whose drug-gene stage raises. -/
theorem c2_amended_stage_exceptions_witness :
    (run_analysis envW2).2 = 1
    ∧ Event.successLine ∉ (run_analysis envW2).1 :=
  (c2_amended_stage_exceptions envW2 [] [] [] rfl rfl rfl rfl rfl
      rfl).2.2.2.2.2 rfl rfl rfl rfl rfl rfl rfl dgBoomStr rfl

/-! Lemmas about the top-gene selection of `draw_stacked_bar`. -/

lemma geneLe_trans (rs : List InteractionRecord) :
    ∀ a b c, geneLe rs a b = true → geneLe rs b c = true →
      geneLe rs a c = true := by
  intro a b c hab hbc
  simp only [geneLe, decide_eq_true_eq] at hab hbc ⊢
  exact le_trans hbc hab

lemma geneLe_total (rs : List InteractionRecord) :
    ∀ a b, (geneLe rs a b || geneLe rs b a) = true := by
  intro a b
  simp only [geneLe, Bool.or_eq_true, decide_eq_true_eq]
  exact Nat.le_total _ _

lemma topGenes_subset (rs : List InteractionRecord) (n : Nat) :
    ∀ g ∈ topGenes rs n, g ∈ genesOf rs := by
  intro g hg
  have h1 : g ∈ (genesOf rs).mergeSort (geneLe rs) :=
    List.take_subset n _ hg
  exact (List.mergeSort_perm (genesOf rs) (geneLe rs)).mem_iff.1 h1

lemma topGenes_length (rs : List InteractionRecord) (n : Nat) :
    (topGenes rs n).length = min n (genesOf rs).length := by
  simp [topGenes, List.length_take, List.length_mergeSort]

lemma topGenes_dominates (rs : List InteractionRecord) (n : Nat) :
    ∀ g ∈ topGenes rs n, ∀ gp ∈ genesOf rs, gp ∉ topGenes rs n →
      geneTotal rs gp ≤ geneTotal rs g := by
  intro g hg gp hgp hnp
  have hpw := List.sorted_mergeSort (geneLe_trans rs) (geneLe_total rs) (genesOf rs)
  have hsplit := List.take_append_drop n ((genesOf rs).mergeSort (geneLe rs))
  have hpw2 : List.Pairwise (fun a b => geneLe rs a b = true)
      (List.take n ((genesOf rs).mergeSort (geneLe rs))
        ++ List.drop n ((genesOf rs).mergeSort (geneLe rs))) := by
    rw [hsplit]
    exact hpw
  have hcross := (List.pairwise_append.1 hpw2).2.2
  have hgs : gp ∈ (genesOf rs).mergeSort (geneLe rs) :=
    (List.mergeSort_perm (genesOf rs) (geneLe rs)).mem_iff.2 hgp
  rw [← hsplit] at hgs
  have hgp_drop : gp ∈ List.drop n ((genesOf rs).mergeSort (geneLe rs)) := by
    rcases List.mem_append.1 hgs with h1 | h2
    · exact absurd h1 hnp
    · exact h2
  have hres := hcross g hg gp hgp_drop
  simpa [geneLe, decide_eq_true_eq] using hres

lemma mem_stackedBarGenes (rs : List InteractionRecord) (n : Nat) (x : String) :
    x ∈ stackedBarGenes rs n ↔ x ∈ topGenes rs n := by
  simp only [stackedBarGenes, List.mem_filter, decide_eq_true_eq]
  constructor
  · rintro ⟨-, h⟩
    exact h
  · intro h
    exact ⟨topGenes_subset rs n x h, h⟩

/-- C6: the visualization data of `draw_stacked_bar`: rows with a null
interaction type are relabelled `Unknown`; each cell of the pivoted
table counts the distinct drugs of its (gene, filled interaction-type)
group; the plotted row set is exactly the top `TOP_GENES` (default 15)
genes selected by descending total distinct-drug count — it contains
`min TOP_GENES (number of genes)` genes, and every selected gene has a
total at least that of every unselected gene. -/
theorem c6_stacked_bar_top_genes (rs : List InteractionRecord)
    (h : rs ≠ []) (g t : String) :
    TOP_GENES = 15
    ∧ draw_stacked_bar_genes rs = stackedBarGenes rs TOP_GENES
    ∧ (∀ n x, x ∈ stackedBarGenes rs n ↔ x ∈ topGenes rs n)
    ∧ (∀ n, (topGenes rs n).length = min n (genesOf rs).length)
    ∧ (∀ n, ∀ x ∈ topGenes rs n, ∀ y ∈ genesOf rs, y ∉ topGenes rs n →
        geneTotal rs y ≤ geneTotal rs x)
    ∧ stackedBarCell rs g t
        = distinctCount ((rs.filter (fun r =>
            r.Gene == g && (r.Interaction_Types.getD unknownLabel) == t)).map
          (fun r => r.Drug))
    ∧ ∀ r : InteractionRecord, r.Interaction_Types = none →
        fillTypes r = unknownLabel := by
  refine ⟨rfl, rfl, fun n x => mem_stackedBarGenes rs n x,
    fun n => topGenes_length rs n,
    fun n x hx y hy hny => topGenes_dominates rs n x hx y hy hny, rfl, ?_⟩
  intro r hr
  simp [fillTypes, hr]

/-- Concrete flattened record used by the C6 witness. -/
def recW : InteractionRecord := recordOfInteraction geneAStr interW

/-- Witness for C6 at a concrete one-row table. -/
theorem c6_stacked_bar_top_genes_witness :
    ([recW] : List InteractionRecord) ≠ []
    ∧ (topGenes [recW] TOP_GENES).length = min TOP_GENES (genesOf [recW]).length
    ∧ ∀ r : InteractionRecord, r.Interaction_Types = none →
        fillTypes r = unknownLabel := by
  have h := c6_stacked_bar_top_genes [recW] (by decide) geneAStr unknownLabel
  exact ⟨by decide, h.2.2.2.1 TOP_GENES, h.2.2.2.2.2.2⟩

end DeepRegulatoryNet
